import Mathlib

/-!
# Verification model of `monitor_and_sync.py` (pi-gcode-server)

A shallow embedding of the event-to-transfer pipeline of
`monitor_and_sync.py`: the module-level configuration constants, the
`retry_on_failure` decorator, and the `GCodeHandler` methods `on_created`,
`sync_file`, `_execute_rsync_with_retry` and `refresh_usb_gadget`.

Modelling conventions:
* Absolute POSIX paths are modelled as lists of path components
  (`Path := List String`).  The watched paths are absolute strings on a
  POSIX system (`os.sep = "/"`); since a component can never contain the
  separator, the string manipulations of the source translate exactly:
  `os.path.abspath` of an absolute path is lexical normalisation
  (collapse `.`, empty components and `..`, without touching symlinks),
  `s.endswith(".gcode")` holds iff the final component ends with
  `.gcode`, and `abs_file.startswith(abs_watch + os.sep)` holds iff the
  normalised watch root is a strict list-prefix of the normalised file
  path.  `load_config` guarantees the watch root is an absolute
  directory inside the user home, hence nonempty after normalisation.
* The filesystem is a finite association list from *physical* paths
  (symlink-free component lists) to nodes (directory, regular file with
  a byte size, or symlink with an absolute target).  `realpath`
  resolution walks components through symlinks with explicit fuel; fuel
  exhaustion (a symlink loop) counts as failed resolution, matching
  `ELOOP`.
* Blocking calls (`time.sleep`, `subprocess.run`) are modelled by their
  observable outcome: an explicit outcome value for each external
  process invocation, and recorded sleep durations for the retry loop.
* Python `int` arithmetic is unbounded, so `Nat` carries it exactly.
-/

namespace PiGcode

/-! ## Configuration constants (monitor_and_sync.py lines 22-35) -/

def FILE_SETTLE_DELAY : Nat := 1

def RSYNC_TIMEOUT : Nat := 60

def RSYNC_TOTAL_TIMEOUT : Nat := 120

def USB_REFRESH_TIMEOUT : Nat := 30

def MAX_FILE_SIZE : Nat := 1024 * 1024 * 1024

def WARN_FILE_SIZE : Nat := 500 * 1024 * 1024

def MIN_FILE_SIZE : Nat := 1

def RETRY_MAX_ATTEMPTS : Nat := 3

def RETRY_INITIAL_DELAY : Nat := 2

def RETRY_BACKOFF_MULTIPLIER : Nat := 2

/-! ## Paths and the filesystem model -/

/-- An absolute POSIX path, as its list of components (no separators). -/
abbrev Path := List String

/-- A filesystem node: directory, regular file (with its byte size), or
symbolic link (with an absolute target path). -/
inductive Node where
  | dir : Node
  | file (size : Nat) : Node
  | symlink (target : Path) : Node
deriving DecidableEq

/-- A filesystem: finite map from physical (symlink-free) paths to nodes.
A symlink appears as a node at its own physical path; paths passing
through it are resolved by `realpath`, never stored as keys. -/
abbrev Fs := List (Path × Node)

/-- Look a physical path up in the filesystem. -/
def Fs.findNode (fs : Fs) (p : Path) : Option Node :=
  (fs.find? (fun e => e.1 = p)).map (fun e => e.2)

/-- `os.path.abspath` on an absolute path: purely lexical normalisation.
Empty components and `.` are dropped; `..` removes the preceding
component (and is a no-op at the root).  Symlinks are NOT resolved -- this
is the key difference from `os.path.realpath`. -/
def abspath (p : Path) : Path :=
  p.foldl
    (fun acc c =>
      if c = "" ∨ c = "." then acc
      else if c = ".." then acc.dropLast
      else acc ++ [c])
    []

/-- The containment test of sync_file (line 271):
`abs_file_path.startswith(abs_watch_dir + os.sep)`.  On component lists
this is: the normalised watch root is a strict prefix of the normalised
file path. -/
def startswith_sep (aw ap : Path) : Bool :=
  aw.isPrefixOf ap && !(aw == ap)

/-- Python `s.endswith(suffix)`, computed on the character lists of the
strings (extensionally `String.endsWith`, whose byte-position
implementation does not reduce inside the kernel). -/
def str_ends_with (s suffix : String) : Bool :=
  suffix.data.isSuffixOf s.data

/-- `path.endswith(".gcode")` for an absolute path: the final component
ends with `.gcode` (the suffix cannot straddle a separator). -/
def ends_with_gcode (p : Path) : Bool :=
  match p.getLast? with
  | some c => str_ends_with c ".gcode"
  | none => false

/-- Fuel-bounded symlink-aware resolution: resolve `comps` against the
already-physical prefix `base`.  Symlink targets are absolute, so hitting
one restarts from the root with `target ++ rest`.  Running out of fuel
(a symlink loop) is a failed resolution. -/
def resolveFuel (fs : Fs) : Nat → Path → Path → Option Path
  | 0, _, _ => none
  | _ + 1, base, [] => some base
  | fuel + 1, base, c :: rest =>
    if c = "" ∨ c = "." then resolveFuel fs fuel base rest
    else if c = ".." then resolveFuel fs fuel base.dropLast rest
    else
      match fs.findNode (base ++ [c]) with
      | some (.symlink t) => resolveFuel fs fuel [] (t ++ rest)
      | _ => resolveFuel fs fuel (base ++ [c]) rest

/-- `os.path.realpath`: canonical, symlink-free form of a path.  The fuel
is generous enough for any loop-free resolution in `fs`. -/
def realpath (fs : Fs) (p : Path) : Option Path :=
  resolveFuel fs ((fs.length + p.length + 1) * (fs.length + p.length + 1)) [] p

/-- `os.lstat`: resolve symlinks in every component but the last, then
look at the final entry itself. -/
def lstatNode (fs : Fs) (p : Path) : Option Node :=
  match p.getLast? with
  | none => Fs.findNode fs []
  | some c =>
    match realpath fs p.dropLast with
    | some d => fs.findNode (d ++ [c])
    | none => none

/-- `os.stat`: resolve symlinks in every component including the last. -/
def statNode (fs : Fs) (p : Path) : Option Node :=
  match realpath fs p with
  | some q => fs.findNode q
  | none => none

/-- `os.path.islink`: the final entry itself is a symlink. -/
def islink (fs : Fs) (p : Path) : Bool :=
  match lstatNode fs p with
  | some (.symlink _) => true
  | _ => false

/-- `os.path.isfile`: the path resolves to a regular file. -/
def isfile (fs : Fs) (p : Path) : Bool :=
  match statNode fs p with
  | some (.file _) => true
  | _ => false

/-- `os.path.exists`: the path resolves to some node. -/
def path_exists (fs : Fs) (p : Path) : Bool :=
  (statNode fs p).isSome

/-- `os.path.getsize`, `none` standing for a raised `OSError`. -/
def getsize (fs : Fs) (p : Path) : Option Nat :=
  match statNode fs p with
  | some (.file sz) => some sz
  | _ => none

/-! ## The retry decorator (lines 37-74) -/

/-- Outcome of one attempt of the wrapped function: it returns normally,
raises `subprocess.CalledProcessError`, raises
`subprocess.TimeoutExpired`, or raises some other exception. -/
inductive AttemptOutcome where
  | ok : AttemptOutcome
  | calledProcessError : AttemptOutcome
  | timeoutExpired : AttemptOutcome
  | otherError : AttemptOutcome
deriving DecidableEq

/-- The exception classes named in the `except` clause at line 60. -/
def transient : AttemptOutcome → Bool
  | .calledProcessError => true
  | .timeoutExpired => true
  | _ => false

/-- How a call through the retry wrapper ends: the wrapped function
returned, some exception propagated out, or the `while` loop ran off the
end (only possible when `max_attempts < 1`; Python then returns `None`). -/
inductive RetryResult where
  | returned : RetryResult
  | raised (e : AttemptOutcome) : RetryResult
  | fellThrough : RetryResult
deriving DecidableEq

/-- The `while attempt <= max_attempts` loop of `wrapper` (lines 57-71),
with explicit fuel (the loop body runs at most `maxA` times).
`outcomes i` is what the wrapped function does on its `i`-th invocation.
Returns the final result together with the list of `time.sleep` durations
performed, in order. -/
def retryGo (outcomes : Nat → AttemptOutcome) (maxA mult : Nat) :
    Nat → Nat → Nat → RetryResult × List Nat
  | 0, _, _ => (.fellThrough, [])
  | fuel + 1, attempt, delay =>
    if maxA < attempt then (.fellThrough, [])
    else
      match outcomes attempt with
      | .ok => (.returned, [])
      | .otherError => (.raised .otherError, [])
      | .calledProcessError =>
        if attempt = maxA then (.raised .calledProcessError, [])
        else
          ((retryGo outcomes maxA mult fuel (attempt + 1) (delay * mult)).1,
            delay :: (retryGo outcomes maxA mult fuel (attempt + 1) (delay * mult)).2)
      | .timeoutExpired =>
        if attempt = maxA then (.raised .timeoutExpired, [])
        else
          ((retryGo outcomes maxA mult fuel (attempt + 1) (delay * mult)).1,
            delay :: (retryGo outcomes maxA mult fuel (attempt + 1) (delay * mult)).2)

/-- `retry_on_failure(max_attempts, initial_delay, backoff_multiplier)`
applied to a function whose attempt outcomes are `outcomes`: start at
`attempt = 1`, `delay = initial_delay`.  Fuel `maxA` suffices: the loop
recurses at most `maxA - 1` times (the final attempt re-raises). -/
def retry_on_failure (maxA init mult : Nat) (outcomes : Nat → AttemptOutcome) :
    RetryResult × List Nat :=
  retryGo outcomes maxA mult maxA 1 init

/-! ## Size validation, dynamic timeout, rsync command (lines 296-349) -/

/-- Result of the file-size checks of sync_file (lines 302-313). -/
inductive SizeCheck where
  | rejectedEmpty : SizeCheck
  | rejectedTooLarge : SizeCheck
  | accepted (warnedLarge : Bool) : SizeCheck
deriving DecidableEq

/-- The size checks at lines 302-313, in source order: reject below
`MIN_FILE_SIZE`, reject above `MAX_FILE_SIZE`, otherwise accept, logging
a large-file warning exactly when the size exceeds `WARN_FILE_SIZE`. -/
def size_check (file_size : Nat) : SizeCheck :=
  if file_size < MIN_FILE_SIZE then .rejectedEmpty
  else if MAX_FILE_SIZE < file_size then .rejectedTooLarge
  else .accepted (WARN_FILE_SIZE < file_size)

/-- `Nat.log2` with explicit fuel, so that it reduces inside the kernel
(the library version recurses by well-founded recursion).  For `n ≥ 1`
and fuel `≥ n` this is the floor of the base-2 logarithm of `n`. -/
def log2Fuel : Nat → Nat → Nat
  | 0, _ => 0
  | fuel + 1, n => if n < 2 then 0 else log2Fuel fuel (n / 2) + 1

/-- Floor of the base-2 logarithm (0 at 0), kernel-computable. -/
def nat_log2 (n : Nat) : Nat := log2Fuel n n

/-- IEEE-754 binary64 rounding of the exact nonnegative rational `a / b`
(round to nearest, ties to even) at full 53-bit precision: returns
`(m, e)` with value `m * 2^e`, `m < 2^53` (`(0, 0)` for zero).  Exponent
overflow and subnormals are not modelled: all quantities produced at
line 333 of the source lie well inside the normal range of binary64, so
rounding of the significand is the entire behaviour.  The binade
exponent `E` (with `2^E ≤ a/b < 2^(E+1)`) is found from the bit lengths
of `a` and `b` and one scaled comparison; the significand is the
half-to-even rounding of `(a/b) * 2^(52-E)`, renormalised if the
rounding carries into `2^53`. -/
def floatRound (a b : Nat) : Nat × Int :=
  if a = 0 ∨ b = 0 then (0, 0)
  else
    let d0 : Int := (nat_log2 a : Int) - (nat_log2 b : Int)
    let ge : Bool := b * 2 ^ d0.toNat ≤ a * 2 ^ (-d0).toNat
    let E : Int := if ge then d0 else d0 - 1
    let t : Int := 52 - E
    let N := a * 2 ^ t.toNat
    let D := b * 2 ^ (-t).toNat
    let q := N / D
    let r := N % D
    let m :=
      if 2 * r < D then q
      else if D < 2 * r then q + 1
      else if q % 2 = 0 then q else q + 1
    if m = 2 ^ 53 then (2 ^ 52, E - 51) else (m, E - 52)

/-- Multiplication of a binary64 value `(m, e)` by the exactly
representable integer 60, with the IEEE rounding of the product: scaling
by `2^e` commutes with significand rounding, so this is the 53-bit
rounding of the integer `m * 60` with the exponent carried over. -/
def floatMul60 : Nat × Int → Nat × Int
  | (m, e) =>
    match floatRound (m * 60) 1 with
    | (m2, e2) => (m2, e2 + e)

/-- Python `int()` on a nonnegative binary64 value: truncation. -/
def floatTrunc : Nat × Int → Nat
  | (m, e) => if 0 ≤ e then m * 2 ^ e.toNat else m / 2 ^ (-e).toNat

/-- Python `int((file_size / (100 * 1024 * 1024)) * 60)` exactly as
evaluated: true division of the two integers to the nearest binary64,
then binary64 multiplication by 60, then truncation.  Because of the two
roundings this can land one below exact floor division: e.g. at 205 MB
the quotient 2.05 rounds down, the product lands just below 123, and
truncation gives 122 where exact arithmetic gives 123. -/
def py_timeout_float (file_size : Nat) : Nat :=
  floatTrunc (floatMul60 (floatRound file_size (100 * 1024 * 1024)))

/-- Line 333:
`timeout_seconds = max(RSYNC_TOTAL_TIMEOUT, int((file_size / (100 * 1024 * 1024)) * 60))`,
with the inner expression evaluated in IEEE binary64 as `py_timeout_float`. -/
def timeout_seconds (file_size : Nat) : Nat :=
  max RSYNC_TOTAL_TIMEOUT (py_timeout_float file_size)

/-- The `-e` argument of the rsync command (line 342). -/
def ssh_transport (port : String) : String :=
  "ssh -p " ++ port ++
    " -o StrictHostKeyChecking=yes -o ConnectTimeout=10 -o ServerAliveInterval=5 -o ServerAliveCountMax=3"

/-- The remote destination argument (line 344):
`f"{REMOTE_USER}@{REMOTE_HOST}:{REMOTE_PATH}/"`. -/
def rsync_dest (user host rpath : String) : String :=
  user ++ "@" ++ host ++ ":" ++ rpath ++ "/"

/-- The full rsync argument list built at lines 338-345. -/
def rsync_cmd (user host port rpath abs_file_path : String) : List String :=
  ["rsync", "-avz", "--timeout=" ++ toString RSYNC_TIMEOUT,
   "-e", ssh_transport port,
   abs_file_path,
   rsync_dest user host rpath]

/-! ## refresh_usb_gadget (lines 390-439) -/

/-- Outcome of one `subprocess.run` call: completes with exit status 0,
raises `TimeoutExpired`, raises `CalledProcessError` (non-zero exit under
`check=True`), or raises some other exception. -/
inductive SubprocOutcome where
  | completed : SubprocOutcome
  | timeoutExpired : SubprocOutcome
  | calledProcessError : SubprocOutcome
  | otherExc : SubprocOutcome
deriving DecidableEq

/-- `refresh_usb_gadget` as a function of the ssh invocation outcome.
The result is `Except`: an `.error` would model an exception escaping to
the caller.  The three `except` clauses (lines 423, 428, 436 -- the last
one catches every `Exception`) convert every fault into `.ok false` plus
log output, so no `.error` is ever produced; success returns `.ok true`
(line 421). -/
def refresh_usb_gadget : SubprocOutcome → Except SubprocOutcome Bool
  | .completed => .ok true
  | .timeoutExpired => .ok false
  | .calledProcessError => .ok false
  | .otherExc => .ok false

/-! ## sync_file (lines 255-365) -/

/-- How one `sync_file` call ends, mirroring its early returns, its
success path and its `except` clauses. -/
inductive SyncOutcome where
  | duplicate : SyncOutcome
  | rejectedOutsideRoot : SyncOutcome
  | rejectedMissing : SyncOutcome
  | rejectedSymlink : SyncOutcome
  | rejectedNotRegular : SyncOutcome
  | rejectedExtension : SyncOutcome
  | rejectedSizeError : SyncOutcome
  | rejectedEmpty : SyncOutcome
  | rejectedTooLarge : SyncOutcome
  | rejectedRevalSymlink : SyncOutcome
  | rejectedRevalNotRegular : SyncOutcome
  | rejectedRevalExtension : SyncOutcome
  | success : SyncOutcome
  | timeoutLogged : SyncOutcome
  | rsyncFailedLogged : SyncOutcome
  | unexpectedLogged : SyncOutcome
deriving DecidableEq

/-- The re-validation block at lines 317-329, run against the filesystem
state `fs` found immediately before the rsync invocation: became a
symlink, stopped being a regular file, or stopped carrying the required
extension. -/
def re_validation (fs : Fs) (ap : Path) : Option SyncOutcome :=
  if islink fs ap then some .rejectedRevalSymlink
  else if !isfile fs ap then some .rejectedRevalNotRegular
  else if !ends_with_gcode ap then some .rejectedRevalExtension
  else none

/-- Result of the body of sync_file up to and including the rsync call:
returned before invoking rsync, invoked rsync which raised (caught at
lines 356-362), or invoked rsync successfully (with the timeout used). -/
inductive CoreResult where
  | rejectedEarly (out : SyncOutcome) : CoreResult
  | transferFailed (out : SyncOutcome) (timeoutUsed : Nat) : CoreResult
  | transferOk (timeoutUsed : Nat) : CoreResult
deriving DecidableEq

/-- The try-block of sync_file from line 265 to line 349, minus the
USB-refresh step.  `fs1` is the filesystem state observed by the first
validation pass (lines 267-313) and `fs2` the state observed by the
re-validation pass (lines 317-329); modelling them as two snapshots
expresses the TOCTOU window between the passes.  `rsync` is the outcome
of `_execute_rsync_with_retry` (line 349), already past its internal
retries. -/
def sync_file_core (w p : Path) (fs1 fs2 : Fs) (rsync : SubprocOutcome) : CoreResult :=
  let ap := abspath p
  let aw := abspath w
  if !startswith_sep aw ap then .rejectedEarly .rejectedOutsideRoot
  else if !path_exists fs1 ap then .rejectedEarly .rejectedMissing
  else if islink fs1 ap then .rejectedEarly .rejectedSymlink
  else if !isfile fs1 ap then .rejectedEarly .rejectedNotRegular
  else if !ends_with_gcode ap then .rejectedEarly .rejectedExtension
  else
    match getsize fs1 ap with
    | none => .rejectedEarly .rejectedSizeError
    | some sz =>
      match size_check sz with
      | .rejectedEmpty => .rejectedEarly .rejectedEmpty
      | .rejectedTooLarge => .rejectedEarly .rejectedTooLarge
      | .accepted _ =>
        match re_validation fs2 ap with
        | some out => .rejectedEarly out
        | none =>
          match rsync with
          | .completed => .transferOk (timeout_seconds sz)
          | .timeoutExpired => .transferFailed .timeoutLogged (timeout_seconds sz)
          | .calledProcessError => .transferFailed .rsyncFailedLogged (timeout_seconds sz)
          | .otherExc => .transferFailed .unexpectedLogged (timeout_seconds sz)

/-- Observable result of the whole try-block of sync_file. -/
structure BodyResult where
  outcome : SyncOutcome
  transferInvoked : Bool
  refreshInvoked : Bool
  refreshResult : Option Bool
  timeoutUsed : Option Nat
deriving DecidableEq

/-- The whole try-block (lines 263-354) including the USB-refresh step:
after a successful rsync, line 351 records the sync as successful and
line 354 calls `refresh_usb_gadget`, discarding its boolean result.  Were
`refresh_usb_gadget` ever to raise, the `except Exception` at line 361
would catch it. -/
def sync_file_body (w p : Path) (fs1 fs2 : Fs) (rsync refresh : SubprocOutcome) :
    BodyResult :=
  match sync_file_core w p fs1 fs2 rsync with
  | .rejectedEarly out => ⟨out, false, false, none, none⟩
  | .transferFailed out t => ⟨out, true, false, none, some t⟩
  | .transferOk t =>
    match refresh_usb_gadget refresh with
    | .ok b => ⟨.success, true, true, some b, some t⟩
    | .error _ => ⟨.unexpectedLogged, true, true, none, some t⟩

/-- What happens when the try-block runs: either it executes normally
under the given snapshots and process outcomes, or an unexpected
exception is raised at an arbitrary point inside it (caught by the
`except Exception` at line 361); `transferredBeforeFault` records whether
the rsync call had already happened at that point. -/
inductive BodyEvent where
  | runs (fs1 fs2 : Fs) (rsync refresh : SubprocOutcome) : BodyEvent
  | faults (transferredBeforeFault : Bool) : BodyEvent
deriving DecidableEq

/-- Observable result of one `sync_file` call. -/
structure SyncResult where
  syncing : List Path
  outcome : SyncOutcome
  transferInvoked : Bool
deriving DecidableEq

/-- `sync_file` (lines 255-365): the check-and-add on `self.syncing`
under `self.syncing_lock` (lines 258-261), the try-block, and the
`finally` clause (lines 363-365) which discards the path from
`self.syncing` on every exit from the body. -/
def sync_file (w : Path) (syncing : List Path) (p : Path) (ev : BodyEvent) :
    SyncResult :=
  if p ∈ syncing then ⟨syncing, .duplicate, false⟩
  else
    let added := p :: syncing
    let stepped :=
      match ev with
      | .runs fs1 fs2 rsync refresh =>
        let b := sync_file_body w p fs1 fs2 rsync refresh
        (b.outcome, b.transferInvoked)
      | .faults tr => (SyncOutcome.unexpectedLogged, tr)
    ⟨added.erase p, stepped.1, stepped.2⟩

/-! ## on_created (lines 231-237) and the handler lock -/

/-- Result of a handler callback on the event thread: it returns (having
invoked a transfer or not), or it blocks forever on a lock acquisition. -/
inductive HandlerResult where
  | returned (transferInvoked : Bool) : HandlerResult
  | deadlocked : HandlerResult
deriving DecidableEq

/-- Entry into `sync_file` from a caller that may already hold
`self.syncing_lock`.  `sync_file` begins with `with self.syncing_lock:`
(line 258); `threading.Lock` is not reentrant, so if the calling thread
already holds that lock the acquisition blocks forever. -/
def sync_file_locked (lockHeldByCaller : Bool) (w : Path) (syncing : List Path)
    (p : Path) (ev : BodyEvent) : HandlerResult :=
  if lockHeldByCaller then .deadlocked
  else .returned (sync_file w syncing p ev).transferInvoked

/-- `on_created` (lines 231-237): filter directory events and non-gcode
paths, then, still *inside* `with self.syncing_lock:`, check membership
and call `self.sync_file(event.src_path)` synchronously on the event
thread with the lock held. -/
def on_created (w : Path) (syncing : List Path) (isDirectory : Bool)
    (src_path : Path) (ev : BodyEvent) : HandlerResult :=
  if isDirectory || !ends_with_gcode src_path then .returned false
  else
    if src_path ∈ syncing then .returned false
    else sync_file_locked true w syncing src_path ev

/-! ## Definitions following the words of the specification

These two definitions are written from the specification text, NOT from
the source; each exists only to be compared against the corresponding
source-derived definition. -/

/-- Modelled from the spec (section 4.1, steps 1-2, and the C1 claim
text): resolve both the candidate path and the watch root to their
canonical, symlink-free forms and require the former to be a strict
descendant of the latter (prefix match on the resolved root plus a path
separator). -/
def spec_canonical_strict_descendant (fs : Fs) (w p : Path) : Bool :=
  match realpath fs (abspath p), realpath fs (abspath w) with
  | some cp, some cw => cw.isPrefixOf cp && !(cw == cp)
  | _, _ => false

/-- Ceiling division on naturals. -/
def ceil_div (a b : Nat) : Nat := (a + b - 1) / b

/-- Modelled from the spec (section 4.2 step 4 and the C6 claim text):
`timeout = max(BASE_TIMEOUT, ceil(size / SIZE_UNIT) * TIME_UNIT)` with
`BASE_TIMEOUT = 120`, `SIZE_UNIT = 100 MB`, `TIME_UNIT = 60`. -/
def spec_timeout_formula (size : Nat) : Nat :=
  max RSYNC_TOTAL_TIMEOUT (ceil_div size (100 * 1024 * 1024) * 60)

/-! ## Concrete fixtures for counterexamples and witnesses -/

/-- Watch root `/h/u/w` for the symlink-escape scenario. -/
def wEx : Path := ["h", "u", "w"]

/-- A path inside the watch root whose middle component `e` is a symlink
to the outside directory `/x`. -/
def pEx : Path := ["h", "u", "w", "e", "f.gcode"]

/-- Filesystem for the symlink-escape scenario: `/h/u/w` is the watch
root, `/h/u/w/e` is a symlink to `/x`, and `/x/f.gcode` is a regular
file outside the root. -/
def fsEx : Fs :=
  [(["h"], .dir), (["h", "u"], .dir), (["h", "u", "w"], .dir),
   (["h", "u", "w", "e"], .symlink ["x"]),
   (["x"], .dir), (["x", "f.gcode"], .file 5)]

/-- A traversal path under `wEx` that lexically escapes the root. -/
def pTrav : Path := ["h", "u", "w", "..", "..", "s.gcode"]

/-- Watch root `/h/w` for the re-validation scenario. -/
def wW : Path := ["h", "w"]

/-- The file `/h/w/a.gcode` in the re-validation scenario. -/
def pW : Path := ["h", "w", "a.gcode"]

/-- First snapshot: `/h/w/a.gcode` is a regular 10-byte file. -/
def fs1W : Fs :=
  [(["h"], .dir), (["h", "w"], .dir), (["h", "w", "a.gcode"], .file 10)]

/-- Second snapshot: between validation and re-validation the file was
replaced by a symlink to `/x/t.gcode`. -/
def fs2W : Fs :=
  [(["h"], .dir), (["h", "w"], .dir),
   (["h", "w", "a.gcode"], .symlink ["x", "t.gcode"]),
   (["x"], .dir), (["x", "t.gcode"], .file 7)]

/-- Attempt outcomes where every invocation raises
`subprocess.CalledProcessError`. -/
def allCPE : Nat → AttemptOutcome := fun _ => .calledProcessError

/-- Attempt outcomes where the first invocation raises an exception that
is neither `CalledProcessError` nor `TimeoutExpired`. -/
def firstOther : Nat → AttemptOutcome := fun _ => .otherError

/-- Attempt outcomes: transient failure, then success. -/
def failThenOk : Nat → AttemptOutcome := fun i => if i = 1 then .timeoutExpired else .ok

/-- The rsync command for the concrete configuration of the repository
test `test_remote_path_leading_hyphen_uses_protect_args`
(`REMOTE_PATH = "--gcode"`). -/
def cmdEx : List String := rsync_cmd "u" "printer" "22" "--gcode" "/h/w/a.gcode"

/-! ## Theorems -/

/-- C7: for every file size `s`, the size validation of sync_file
implements the trichotomy: `s < MIN_FILE_SIZE` (1 byte) is rejected;
`MIN_FILE_SIZE <= s <= MAX_FILE_SIZE` (1 GB) is accepted, with the
large-file warning flagged exactly when `s > WARN_FILE_SIZE` (500 MB);
`s > MAX_FILE_SIZE` is rejected. -/
theorem c7_size_trichotomy (s : Nat) :
    (s < MIN_FILE_SIZE → size_check s = .rejectedEmpty) ∧
    (MIN_FILE_SIZE ≤ s → s ≤ MAX_FILE_SIZE →
      size_check s = .accepted (decide (WARN_FILE_SIZE < s))) ∧
    (MAX_FILE_SIZE < s → size_check s = .rejectedTooLarge) := by
  unfold size_check MIN_FILE_SIZE MAX_FILE_SIZE WARN_FILE_SIZE
  refine ⟨fun h => ?_, fun h1 h2 => ?_, fun h => ?_⟩
  · rw [if_pos h]
  · rw [if_neg (by omega), if_neg (by omega)]
  · rw [if_neg (by omega), if_pos h]

/-- Witness for C7 at concrete sizes: empty, 2 MB (no warning),
600 MB (warning flagged), and one byte over 1 GB. -/
theorem c7_size_trichotomy_witness :
    size_check 0 = .rejectedEmpty ∧
    size_check (2 * 1024 * 1024) = .accepted false ∧
    size_check (600 * 1024 * 1024) = .accepted true ∧
    size_check (1024 * 1024 * 1024 + 1) = .rejectedTooLarge :=
  ⟨(c7_size_trichotomy 0).1 (by decide),
   (c7_size_trichotomy (2 * 1024 * 1024)).2.1 (by decide) (by decide),
   (c7_size_trichotomy (600 * 1024 * 1024)).2.1 (by decide) (by decide),
   (c7_size_trichotomy (1024 * 1024 * 1024 + 1)).2.2 (by decide)⟩

/-- C6, counterexample: at the accepted size 250 MB the code computes
`int((size / 100MB) * 60) = 150` (truncation), while the claimed formula
`max(120, ceil(size / 100MB) * 60)` gives 180; the two disagree, so the
claimed ceiling formula is not the one implemented. -/
theorem c6_timeout_not_ceiling :
    timeout_seconds (250 * 1024 * 1024) = 150 ∧
    spec_timeout_formula (250 * 1024 * 1024) = 180 ∧
    timeout_seconds (250 * 1024 * 1024) ≠ spec_timeout_formula (250 * 1024 * 1024) := by
  decide

/-- C6 as amended: the transfer timeout is
`max(RSYNC_TOTAL_TIMEOUT, int((size / 100MB) * 60))` with the inner
expression evaluated in binary64 floating point and truncated -- not a
ceiling -- so it is never below the 120 s baseline; the two sizes named
by the claim give 120 s (10 MB) and 300 s (500 MB).  The double rounding
can land one below exact integer arithmetic: at the accepted size 205 MB
the code computes 122 where exact floor division gives 123. -/
theorem c6_timeout_truncation_with_baseline :
    (∀ s : Nat, RSYNC_TOTAL_TIMEOUT ≤ timeout_seconds s) ∧
    timeout_seconds (10 * 1024 * 1024) = 120 ∧
    timeout_seconds (500 * 1024 * 1024) = 300 ∧
    timeout_seconds (205 * 1024 * 1024) = 122 ∧
    205 * 1024 * 1024 * 60 / (100 * 1024 * 1024) = 123 :=
  ⟨fun _ => le_max_left _ _, by decide, by decide, by decide, by decide⟩

/-- C8: with the repository test configuration `REMOTE_PATH = "--gcode"`,
the rsync invocation passes the remote destination as the single final
element of the argument list (no shell interpretation), but the command
contains neither `--protect-args` (`-s`) nor an option terminator `--`,
so nothing instructs rsync to treat a destination beginning with a dash
as a literal path -- the repository test
`test_remote_path_leading_hyphen_uses_protect_args` requires
`--protect-args` to be present. -/
theorem c8_no_protect_args :
    cmdEx.getLast? = some (rsync_dest "u" "printer" "--gcode") ∧
    rsync_dest "u" "printer" "--gcode" = "u@printer:--gcode/" ∧
    "--protect-args" ∉ cmdEx ∧ "-s" ∉ cmdEx ∧
    "--" ∉ cmdEx ∧ "--secluded-args" ∉ cmdEx := by
  decide

/-- C4: a single fresh `.gcode` creation event deadlocks the event
thread: `on_created` holds `self.syncing_lock` while it calls
`sync_file`, whose first statement re-acquires the same non-reentrant
lock.  The same event, had `sync_file` been entered without the lock
held, would have performed exactly one transfer -- the repository test
`test_on_created_does_not_deadlock` requires `on_created` to return. -/
theorem c4_on_created_deadlocks :
    on_created wW [] false pW (.runs fs1W fs1W .completed .completed) = .deadlocked ∧
    (sync_file wW [] pW (.runs fs1W fs1W .completed .completed)).transferInvoked = true := by
  decide

/-- C1, counterexample: `/h/u/w/e/f.gcode`, whose component `e` is a
symlink out of the watch root `/h/u/w`, canonically resolves to
`/x/f.gcode` -- not a descendant of the root -- yet the validation of
sync_file accepts it and the transfer is attempted, because the
containment check uses `os.path.abspath` (purely lexical) and the
`islink` check only inspects the final component. -/
theorem c1_canonical_escape_not_rejected :
    spec_canonical_strict_descendant fsEx wEx pEx = false ∧
    realpath fsEx (abspath pEx) = some ["x", "f.gcode"] ∧
    (sync_file_body wEx pEx fsEx fsEx .completed .completed).transferInvoked = true := by
  decide

/-- C1 as amended: the containment validation of sync_file is lexical,
not canonical.  Whenever the `os.path.abspath` normalisation of the
event path is not a strict descendant of the normalised watch root --
which covers every `..` traversal and absolute escape -- sync_file
rejects the path with no transfer; conversely a transfer is only ever
attempted for paths whose lexical normalisation is a strict descendant
of the root.  Escapes through a symlinked intermediate directory
component survive this check (see the counterexample). -/
theorem c1_containment_lexical (w p : Path) (fs1 fs2 : Fs)
    (rsync refresh : SubprocOutcome) :
    (startswith_sep (abspath w) (abspath p) = false →
      sync_file_body w p fs1 fs2 rsync refresh =
        ⟨.rejectedOutsideRoot, false, false, none, none⟩) ∧
    ((sync_file_body w p fs1 fs2 rsync refresh).transferInvoked = true →
      startswith_sep (abspath w) (abspath p) = true) := by
  have hfalse : startswith_sep (abspath w) (abspath p) = false →
      sync_file_body w p fs1 fs2 rsync refresh =
        ⟨.rejectedOutsideRoot, false, false, none, none⟩ := by
    intro h
    simp [sync_file_body, sync_file_core, h]
  refine ⟨hfalse, fun h => ?_⟩
  cases hx : startswith_sep (abspath w) (abspath p)
  · rw [hfalse hx] at h
    exact absurd h (by decide)
  · rfl

/-- Witness for C1 as amended: the traversal path `/h/u/w/../../s.gcode`
normalises to `/h/s.gcode`, outside the root, and is rejected with no
transfer. -/
theorem c1_containment_lexical_witness :
    sync_file_body wEx pTrav fsEx fsEx .completed .completed =
      ⟨.rejectedOutsideRoot, false, false, none, none⟩ :=
  (c1_containment_lexical wEx pTrav fsEx fsEx .completed .completed).1 (by decide)

/-- C2: if at re-validation time (immediately before the rsync call) the
admitted path has become a symlink, stopped being a regular file, or
stopped ending in `.gcode`, then sync_file returns without ever invoking
the transfer command or the USB refresh. -/
theorem c2_revalidation_blocks_transfer (w p : Path) (fs1 fs2 : Fs)
    (rsync refresh : SubprocOutcome)
    (h : islink fs2 (abspath p) = true ∨ isfile fs2 (abspath p) = false ∨
      ends_with_gcode (abspath p) = false) :
    (sync_file_body w p fs1 fs2 rsync refresh).transferInvoked = false ∧
    (sync_file_body w p fs1 fs2 rsync refresh).refreshInvoked = false := by
  have hrv : re_validation fs2 (abspath p) ≠ none := by
    unfold re_validation
    cases hil : islink fs2 (abspath p) <;>
      cases hif : isfile fs2 (abspath p) <;>
        cases hex : ends_with_gcode (abspath p) <;>
          simp_all
  obtain ⟨out, hout⟩ :
      ∃ out, sync_file_core w p fs1 fs2 rsync = .rejectedEarly out := by
    simp only [sync_file_core]
    repeat' split
    all_goals try exact ⟨_, rfl⟩
    all_goals exact absurd (by assumption) hrv
  simp [sync_file_body, hout]

/-- Witness for C2: the file `/h/w/a.gcode` is a regular file in the
first snapshot but a symlink in the second; no transfer happens. -/
theorem c2_revalidation_blocks_transfer_witness :
    islink fs2W (abspath pW) = true ∧
    (sync_file_body wW pW fs1W fs2W .completed .completed).transferInvoked = false :=
  ⟨by decide,
   (c2_revalidation_blocks_transfer wW pW fs1W fs2W .completed .completed
      (Or.inl (by decide))).1⟩

/-- C3: whenever a call to sync_file is admitted into the processing
body (the path was not already in flight), the path is gone from the
in-flight set when the call returns, on every execution path of the body
-- normal run under any snapshots and process outcomes, and an
unexpected fault at any point in the body alike; the `finally` clause
restores the set to exactly its prior value. -/
theorem c3_inflight_always_cleared (w : Path) (s : List Path) (p : Path)
    (ev : BodyEvent) (h : p ∉ s) :
    (sync_file w s p ev).syncing = s ∧ p ∉ (sync_file w s p ev).syncing := by
  have hs : (sync_file w s p ev).syncing = s := by
    simp [sync_file, h]
  exact ⟨hs, by rw [hs]; exact h⟩

/-- Witness for C3: an admitted call that suffers an unexpected fault
after the transfer still leaves the in-flight set empty. -/
theorem c3_inflight_always_cleared_witness :
    (sync_file wW [] pW (.faults true)).syncing = [] ∧
    pW ∉ (sync_file wW [] pW (.faults true)).syncing :=
  c3_inflight_always_cleared wW [] pW (.faults true) (by decide)

/-- C9: `refresh_usb_gadget` never lets an exception reach its caller --
every outcome of the ssh invocation (success, timeout, non-zero exit,
any other exception) is converted to a returned boolean, which is `true`
exactly when the remote command completed successfully; and inside
sync_file the recorded outcome and the fact that the transfer ran are
identical whatever the refresh outcome is, so an activation failure
never disturbs the already-completed transfer. -/
theorem c9_refresh_never_raises_outcome_independent :
    (∀ o : SubprocOutcome, refresh_usb_gadget o = .ok (o == .completed)) ∧
    (∀ (w p : Path) (fs1 fs2 : Fs) (rsync o1 o2 : SubprocOutcome),
      (sync_file_body w p fs1 fs2 rsync o1).outcome =
        (sync_file_body w p fs1 fs2 rsync o2).outcome ∧
      (sync_file_body w p fs1 fs2 rsync o1).transferInvoked =
        (sync_file_body w p fs1 fs2 rsync o2).transferInvoked) := by
  constructor
  · intro o
    cases o <;> rfl
  · intro w p fs1 fs2 rsync o1 o2
    unfold sync_file_body
    cases sync_file_core w p fs1 fs2 rsync <;> cases o1 <;> cases o2 <;>
      exact ⟨rfl, rfl⟩

/-- One unrolling of the retry loop of `retry_on_failure` (definitional
equation of `retryGo` at positive fuel, stated for rewriting). -/
theorem retryGo_step (outcomes : Nat → AttemptOutcome)
    (maxA mult fuel attempt delay : Nat) :
    retryGo outcomes maxA mult (fuel + 1) attempt delay =
      if maxA < attempt then (.fellThrough, [])
      else
        match outcomes attempt with
        | .ok => (.returned, [])
        | .otherError => (.raised .otherError, [])
        | .calledProcessError =>
          if attempt = maxA then (.raised .calledProcessError, [])
          else
            ((retryGo outcomes maxA mult fuel (attempt + 1) (delay * mult)).1,
              delay :: (retryGo outcomes maxA mult fuel (attempt + 1) (delay * mult)).2)
        | .timeoutExpired =>
          if attempt = maxA then (.raised .timeoutExpired, [])
          else
            ((retryGo outcomes maxA mult fuel (attempt + 1) (delay * mult)).1,
              delay :: (retryGo outcomes maxA mult fuel (attempt + 1) (delay * mult)).2) := by
  rfl

/-- C5, counterexample: with `initial=2, multiplier=2, attempts=3` and
every attempt failing transiently, the retry wrapper sleeps `[2, 4]` --
two waits separate three attempts -- not the claimed `[2, 4, 8]`. -/
theorem c5_delay_sequence_not_2_4_8 :
    (retry_on_failure RETRY_MAX_ATTEMPTS RETRY_INITIAL_DELAY
        RETRY_BACKOFF_MULTIPLIER allCPE).2 = [2, 4] ∧
    (retry_on_failure RETRY_MAX_ATTEMPTS RETRY_INITIAL_DELAY
        RETRY_BACKOFF_MULTIPLIER allCPE).2 ≠ [2, 4, 8] := by
  decide

/-- C5 as amended: with `initial=2, multiplier=2, attempts=3`, when every
attempt fails with a transient failure or timeout the waits between
attempts are exactly `[2, 4]`, and the third attempt re-raises its own
exception with no further wait; a successful attempt short-circuits the
remaining retries (a transient failure followed by a success yields one
wait of 2 s and returns). -/
theorem c5_retry_delay_sequence :
    (∀ outcomes : Nat → AttemptOutcome, (∀ i, transient (outcomes i) = true) →
      retry_on_failure RETRY_MAX_ATTEMPTS RETRY_INITIAL_DELAY
          RETRY_BACKOFF_MULTIPLIER outcomes
        = (.raised (outcomes 3), [2, 4])) ∧
    (∀ outcomes : Nat → AttemptOutcome,
      outcomes 1 = .timeoutExpired → outcomes 2 = .ok →
      retry_on_failure RETRY_MAX_ATTEMPTS RETRY_INITIAL_DELAY
          RETRY_BACKOFF_MULTIPLIER outcomes
        = (.returned, [2])) := by
  constructor
  · intro outcomes h
    have h1 := h 1
    have h2 := h 2
    have h3 := h 3
    have inner3 : retryGo outcomes 3 2 1 3 8 = (.raised (outcomes 3), []) := by
      show retryGo outcomes 3 2 (0 + 1) 3 8 = _
      rw [retryGo_step, if_neg (by omega)]
      cases ho3 : outcomes 3 <;> simp_all [transient]
    have inner2 : retryGo outcomes 3 2 2 2 4 = (.raised (outcomes 3), [4]) := by
      show retryGo outcomes 3 2 (1 + 1) 2 4 = _
      rw [retryGo_step, if_neg (by omega)]
      cases ho2 : outcomes 2 <;> simp_all [transient]
    show retryGo outcomes 3 2 (2 + 1) 1 2 = (.raised (outcomes 3), [2, 4])
    rw [retryGo_step, if_neg (by omega)]
    cases ho1 : outcomes 1 <;> simp_all [transient]
  · intro outcomes h1 h2
    have inner : retryGo outcomes 3 2 2 2 4 = (.returned, []) := by
      show retryGo outcomes 3 2 (1 + 1) 2 4 = _
      rw [retryGo_step, if_neg (by omega), h2]
    show retryGo outcomes 3 2 (2 + 1) 1 2 = (.returned, [2])
    rw [retryGo_step, if_neg (by omega), h1]
    simp [inner]

/-- Witness for C5 as amended: all-transient outcomes give waits
`[2, 4]` and re-raise; timeout-then-success gives one wait and returns. -/
theorem c5_retry_delay_sequence_witness :
    ((∀ i, transient (allCPE i) = true) ∧
      retry_on_failure RETRY_MAX_ATTEMPTS RETRY_INITIAL_DELAY
          RETRY_BACKOFF_MULTIPLIER allCPE
        = (.raised .calledProcessError, [2, 4])) ∧
    (failThenOk 1 = .timeoutExpired ∧ failThenOk 2 = .ok ∧
      retry_on_failure RETRY_MAX_ATTEMPTS RETRY_INITIAL_DELAY
          RETRY_BACKOFF_MULTIPLIER failThenOk
        = (.returned, [2])) :=
  ⟨⟨fun _ => rfl, c5_retry_delay_sequence.1 allCPE (fun _ => rfl)⟩,
   rfl, rfl, c5_retry_delay_sequence.2 failThenOk rfl rfl⟩

/-- C10: the retry wrapper catches only `subprocess.CalledProcessError`
and `subprocess.TimeoutExpired`; any other exception raised on the first
attempt propagates immediately with no sleep, whereas either transient
failure type on the first attempt leads to a backoff sleep of
`RETRY_INITIAL_DELAY` seconds followed by a retry. -/
theorem c10_nontransient_propagates_immediately :
    (∀ outcomes : Nat → AttemptOutcome, outcomes 1 = .otherError →
      retry_on_failure RETRY_MAX_ATTEMPTS RETRY_INITIAL_DELAY
          RETRY_BACKOFF_MULTIPLIER outcomes
        = (.raised .otherError, [])) ∧
    (∀ (outcomes : Nat → AttemptOutcome) (e : AttemptOutcome),
      outcomes 1 = e → transient e = true →
      ∃ rest, (retry_on_failure RETRY_MAX_ATTEMPTS RETRY_INITIAL_DELAY
          RETRY_BACKOFF_MULTIPLIER outcomes).2 = RETRY_INITIAL_DELAY :: rest) := by
  constructor
  · intro outcomes h1
    show retryGo outcomes 3 2 (2 + 1) 1 2 = (.raised .otherError, [])
    rw [retryGo_step, if_neg (by omega), h1]
  · intro outcomes e h1 ht
    refine ⟨(retryGo outcomes 3 2 2 2 4).2, ?_⟩
    show (retryGo outcomes 3 2 (2 + 1) 1 2).2 = 2 :: (retryGo outcomes 3 2 2 2 4).2
    rw [retryGo_step, if_neg (by omega), h1]
    cases e <;> simp_all [transient]

/-- Witness for C10: an immediately-propagating non-transient failure,
and a transient first failure that does sleep and retry. -/
theorem c10_nontransient_propagates_immediately_witness :
    retry_on_failure RETRY_MAX_ATTEMPTS RETRY_INITIAL_DELAY
        RETRY_BACKOFF_MULTIPLIER firstOther = (.raised .otherError, []) ∧
    ∃ rest, (retry_on_failure RETRY_MAX_ATTEMPTS RETRY_INITIAL_DELAY
        RETRY_BACKOFF_MULTIPLIER allCPE).2 = RETRY_INITIAL_DELAY :: rest :=
  ⟨c10_nontransient_propagates_immediately.1 firstOther rfl,
   c10_nontransient_propagates_immediately.2 allCPE .calledProcessError rfl rfl⟩

end PiGcode
